import Mathlib

/-!
Verification of `google_detector.py` (Google login / eligibility detector).

The module is shallowly embedded: page/session interactions are modelled as
an explicit `World` record holding the outcome of each external operation
(`Except Unit α` for an operation that may raise), and each Python function
becomes a total Lean function from that record.  Side effects that the spec
talks about (listener registration/removal, the ordered awaits) are recorded
in an explicit effect trace.
-/

/-- Python strings, modelled as lists of characters. -/
abbrev Str := List Char

/-- Python substring containment: `pat in s`.  Checks every suffix of `s`
for `pat` as a prefix. -/
def containsSub : Str → Str → Bool
  | [], pat => pat.isEmpty
  | c :: rest, pat => pat.isPrefixOf (c :: rest) || containsSub rest pat

/-- Relation of `containsSub s pat` to the infix relation `pat <:+: s`. -/
theorem containsSub_iff (s pat : Str) : containsSub s pat = true ↔ pat <:+: s := by
  induction s with
  | nil =>
    simp [containsSub, List.isEmpty_iff]
  | cons c rest ih =>
    simp [containsSub, ih, List.infix_cons_iff]

/-- The closed status enumeration (the `STATUS_*` constants of the module). -/
inductive Status where
  | not_logged_in
  | error
  | ineligible
  | link_ready
  | verified
  | subscribed
  | subscribed_antigravity
  | pending_check
deriving DecidableEq, Repr

/-- Embedding of `_parse_api_response`: marker-based classification of the
captured GI6Jdd payload.  The Python tests membership of the substrings
2 TB, 2TB and (quoted) "2 TB" for the storage marker, and of Antigravity
and (quoted) "Antigravity" for the unlock marker; the body of the function
cannot raise, so the `try` wrapper is not modelled. -/
def parse_api_response (s : Str) : Option Status :=
  let has_2tb := containsSub s "2 TB".data || containsSub s "2TB".data ||
    containsSub s "\"2 TB\"".data
  let has_antigravity := containsSub s "Antigravity".data ||
    containsSub s "\"Antigravity\"".data
  if has_2tb then
    if has_antigravity then some Status.subscribed_antigravity
    else some Status.subscribed
  else none

/-- The high-tier-storage marker, as the spec describes it: any of the three
literal spellings occurs in the payload. -/
def hiTierMarker (s : Str) : Prop :=
  "2 TB".data <:+: s ∨ "2TB".data <:+: s ∨ "\"2 TB\"".data <:+: s

/-- The advanced-feature-unlock marker, as the spec describes it. -/
def unlockMarker (s : Str) : Prop :=
  "Antigravity".data <:+: s ∨ "\"Antigravity\"".data <:+: s

instance (s : Str) : Decidable (hiTierMarker s) := by
  unfold hiTierMarker; infer_instance

instance (s : Str) : Decidable (unlockMarker s) := by
  unfold unlockMarker; infer_instance

/-- Claim C1: for every payload string, `_parse_api_response` returns
`subscribed_antigravity` when both the high-tier-storage marker and the
unlock marker occur, `subscribed` when the storage marker occurs without the
unlock marker, and no signal otherwise (in particular when only the unlock
marker occurs). -/
theorem parse_api_response_classification (s : Str) :
    (hiTierMarker s → unlockMarker s →
      parse_api_response s = some Status.subscribed_antigravity)
  ∧ (hiTierMarker s → ¬ unlockMarker s →
      parse_api_response s = some Status.subscribed)
  ∧ (¬ hiTierMarker s → parse_api_response s = none) := by
  have h1 : (containsSub s "2 TB".data || containsSub s "2TB".data ||
      containsSub s "\"2 TB\"".data) = true ↔ hiTierMarker s := by
    simp [hiTierMarker, containsSub_iff, or_assoc]
  have h2 : (containsSub s "Antigravity".data ||
      containsSub s "\"Antigravity\"".data) = true ↔ unlockMarker s := by
    simp [unlockMarker, containsSub_iff]
  refine ⟨fun ha hb => ?_, fun ha hb => ?_, fun ha => ?_⟩
  · unfold parse_api_response
    rw [if_pos (h1.mpr ha), if_pos (h2.mpr hb)]
  · unfold parse_api_response
    rw [if_pos (h1.mpr ha), if_neg (fun hc => hb (h2.mp hc))]
  · unfold parse_api_response
    rw [if_neg (fun hc => ha (h1.mp hc))]

/-- Witness for C1: concrete payloads exercising all three branches,
including a payload holding only the unlock marker. -/
theorem parse_api_response_classification_witness :
    parse_api_response "plan: \"2 TB\" with Antigravity".data
      = some Status.subscribed_antigravity
  ∧ parse_api_response "plan: 2 TB only".data = some Status.subscribed
  ∧ parse_api_response "Antigravity only".data = none :=
  ⟨(parse_api_response_classification _).1 (by decide) (by decide),
   (parse_api_response_classification _).2.1 (by decide) (by decide),
   (parse_api_response_classification _).2.2 (by decide)⟩

/-- The page as the DOM-fallback classifier and the evidence extractor see
it: the outcome of each query the Python code can issue.  `Except.error ()`
models the query raising. -/
structure PageElems where
  /-- Count query for the jsname hSRGPd locator (verification pending). -/
  hSRGPd : Except Unit Nat
  /-- Count query for the jsname V67aGc locator (verified, no card). -/
  v67aGc : Except Unit Nat
  /-- Count query for anchors whose href holds sheerid.com. -/
  sheeridAnchorCount : Except Unit Nat
  /-- Result of get_attribute href on the first such anchor (`none` =
  attribute absent). -/
  sheeridAnchorHref : Except Unit (Option Str)
  /-- Result of retrieving the page content and running the fixed
  sheerid.com URL regex search over it: the first match, if any. -/
  contentScan : Except Unit (Option Str)
  /-- Count queries for the three offer-button selectors, in order. -/
  offer1 : Except Unit Nat
  offer2 : Except Unit Nat
  offer3 : Except Unit Nat

/-- Embedding of `_extract_sheerid_link`: first the anchor query (the href
is returned only when truthy, i.e. present and nonempty), then the
content/regex scan; any exception inside yields `none`. -/
def extract_sheerid_link (p : PageElems) : Option Str :=
  let viaAnchor : Except Unit (Option Str) :=
    match p.sheeridAnchorCount with
    | .error e => .error e
    | .ok c =>
      if 0 < c then
        match p.sheeridAnchorHref with
        | .error e => .error e
        | .ok (some h) => .ok (if h.isEmpty then none else some h)
        | .ok none => .ok none
      else .ok none
  match viaAnchor with
  | .error _ => none
  | .ok (some h) => some h
  | .ok none =>
    match p.contentScan with
    | .error _ => none
    | .ok m => m

/-- One offer-button selector check inside the rule-4 loop: a positive count
matches; a raised exception is swallowed by the per-selector `except` and
counts as no match. -/
def offerHit (r : Except Unit Nat) : Bool :=
  match r with
  | .ok n => decide (0 < n)
  | .error _ => false

/-- Rules 4 and 5 of `_detect_page_elements`: the offer-selector loop, then
the `ineligible` default. -/
def offerFallback (p : PageElems) : Status × Option Str :=
  if offerHit p.offer1 || offerHit p.offer2 || offerHit p.offer3 then
    (Status.verified, none)
  else (Status.ineligible, none)

/-- The body of `_detect_page_elements` inside its `try`: the ordered rules
1-5, with an exception raised by the query of a rule propagating out of
the rule list.  Rule 3 returns only when the extracted link is truthy
(nonempty). -/
def detect_page_elements_inner (p : PageElems) : Except Unit (Status × Option Str) :=
  match p.hSRGPd with
  | .error e => .error e
  | .ok c1 =>
    if 0 < c1 then .ok (Status.link_ready, extract_sheerid_link p)
    else
      match p.v67aGc with
      | .error e => .error e
      | .ok c2 =>
        if 0 < c2 then .ok (Status.verified, none)
        else
          match extract_sheerid_link p with
          | some l =>
            if l.isEmpty then .ok (offerFallback p)
            else .ok (Status.link_ready, some l)
          | none => .ok (offerFallback p)

/-- Embedding of `_detect_page_elements`: the rule list, with the
surrounding `except` mapping any escaped exception to ("ineligible", None). -/
def detect_page_elements (p : PageElems) : Status × Option Str :=
  match detect_page_elements_inner p with
  | .ok r => r
  | .error _ => (Status.ineligible, none)

/-- The fixed substring identifying the GI6Jdd backend call. -/
def callId : Str := "rpcids=GI6Jdd".data

/-- State of the listener closure: `api_response_data` together with the
`response_received` event flag. -/
structure ListenerState where
  data : Option Str
  eventSet : Bool
deriving DecidableEq, Repr

/-- Initial listener state: no body captured, event unset. -/
def initListener : ListenerState := ⟨none, false⟩

/-- One observed response: its URL and the outcome of reading its body. -/
abbrev Resp := Str × Except Unit Str

/-- Embedding of `handle_response`: if the URL holds the call identifier, read the body,
store it and set the event; a raised `text()` is caught and leaves the state
unchanged; a non-matching URL is ignored. -/
def handle_response (st : ListenerState) (r : Resp) : ListenerState :=
  if containsSub r.1 callId then
    match r.2 with
    | .ok t => ⟨some t, true⟩
    | .error _ => st
  else st

/-- The listener state after processing a sequence of responses, from the
fresh state the check starts with. -/
def listenerFold (rs : List Resp) : ListenerState :=
  rs.foldl handle_response initListener

/-- The external world one detection call runs against: the outcome of every
session operation the code performs. -/
structure World where
  /-- Outcome of the navigation to accounts.google.com. -/
  gotoAccounts : Except Unit Unit
  /-- Outcome of awaiting visibility of a given avatar selector. -/
  avatarVisible : Str → Except Unit Unit
  /-- Outcome of the navigation to the Google One student page. -/
  gotoOnePage : Except Unit Unit
  /-- The responses the listener processes before `api_response_data` is
  read, in arrival order. -/
  responses : List Resp
  /-- Outcome of the 10-second networkidle wait. -/
  networkIdle : Except Unit Unit
  /-- The page state seen by the DOM fallback classifier. -/
  page : PageElems

/-- The effects of one detection call that the spec talks about, in
program order. -/
inductive Effect where
  | gotoAccounts
  | avatarWait
  | addListener
  | gotoOne
  | waitEvent
  | waitIdle
  | removeListener
deriving DecidableEq, Repr

/-- The avatar selector registry of `check_google_login_by_avatar`. -/
def avatar_selectors : List Str :=
  ["a[aria-label*=\"Google Account\"] img.gbii".data,
   "a.gb_B[role=\"button\"] img".data,
   "a[href*=\"SignOutOptions\"] img".data,
   "img.gb_Q.gbii".data]

/-- The selector loop of `check_google_login_by_avatar`: the first selector
whose visibility wait succeeds yields `true` at once; a per-selector
exception falls through to the next selector; exhaustion yields `false`. -/
def tryAvatars (w : World) : List Str → Bool × List Effect
  | [] => (false, [])
  | s :: rest =>
    match w.avatarVisible s with
    | .ok _ => (true, [Effect.avatarWait])
    | .error _ =>
      let r := tryAvatars w rest
      (r.1, Effect.avatarWait :: r.2)

/-- Embedding of `check_google_login_by_avatar`: navigate to the accounts page, then try
the avatar selectors in order; any escaping exception (navigation included)
yields `false`. -/
def check_google_login_by_avatar (w : World) : Bool × List Effect :=
  match w.gotoAccounts with
  | .error _ => (false, [Effect.gotoAccounts])
  | .ok _ =>
    let r := tryAvatars w avatar_selectors
    (r.1, Effect.gotoAccounts :: r.2)

/-- The response-analysis stage of `check_google_one_status_v2` (lines
reached once navigation and the network-idle wait succeeded): a truthy
captured body goes to `_parse_api_response`; on no signal, or no truthy
body, fall back to `_detect_page_elements`. -/
def analyze (w : World) : Status × Option Str :=
  match (listenerFold w.responses).data with
  | some d =>
    if d.isEmpty then detect_page_elements w.page
    else
      match parse_api_response d with
      | some s => (s, none)
      | none => detect_page_elements w.page
  | none => detect_page_elements w.page

/-- Embedding of `check_google_one_status_v2`: register the listener, navigate, await the
completion event with a bound (its timeout only logs), await network idle,
analyze; the outer `except` maps any escaped exception to ("error", None)
and the `finally` always removes the listener. -/
def check_google_one_status_v2 (w : World) : (Status × Option Str) × List Effect :=
  match w.gotoOnePage with
  | .error _ =>
    ((Status.error, none),
     [Effect.addListener, Effect.gotoOne, Effect.removeListener])
  | .ok _ =>
    match w.networkIdle with
    | .error _ =>
      ((Status.error, none),
       [Effect.addListener, Effect.gotoOne, Effect.waitEvent, Effect.waitIdle,
        Effect.removeListener])
    | .ok _ =>
      (analyze w,
       [Effect.addListener, Effect.gotoOne, Effect.waitEvent, Effect.waitIdle,
        Effect.removeListener])

/-- Embedding of `full_google_detection`: login check first; when not logged in, return
immediately with `not_logged_in`, otherwise run the qualification check. -/
def full_google_detection (w : World) : (Bool × Status × Option Str) × List Effect :=
  if (check_google_login_by_avatar w).1 then
    ((true, (check_google_one_status_v2 w).1.1, (check_google_one_status_v2 w).1.2),
     (check_google_login_by_avatar w).2 ++ (check_google_one_status_v2 w).2)
  else
    ((false, Status.not_logged_in, none), (check_google_login_by_avatar w).2)

deriving instance DecidableEq for Except

/-- The body the listener would store for one response: the read body when
the URL matches and the read succeeds, nothing otherwise. -/
def matchBody (r : Resp) : Option Str :=
  if containsSub r.1 callId then
    match r.2 with
    | .ok t => some t
    | .error _ => none
  else none

/-- The body of the last response in the sequence that matches and reads
successfully. -/
def lastMatchBody : List Resp → Option Str
  | [] => none
  | r :: rest =>
    match lastMatchBody rest with
    | some b => some b
    | none => matchBody r

/-- Whether some response in the sequence matches and reads successfully. -/
def anyMatchOk (rs : List Resp) : Bool :=
  rs.any fun r => (matchBody r).isSome

theorem handle_response_step (st : ListenerState) (r : Resp) :
    (handle_response st r).data
      = (match matchBody r with | some b => some b | none => st.data)
  ∧ (handle_response st r).eventSet = (st.eventSet || (matchBody r).isSome) := by
  unfold handle_response matchBody
  cases hc : containsSub r.1 callId
  · simp
  · cases r.2 <;> simp

theorem listenerFold_general (rs : List Resp) : ∀ st : ListenerState,
    ((rs.foldl handle_response st).data
      = (match lastMatchBody rs with | some b => some b | none => st.data))
  ∧ ((rs.foldl handle_response st).eventSet = (st.eventSet || anyMatchOk rs)) := by
  induction rs with
  | nil => intro st; simp [lastMatchBody, anyMatchOk]
  | cons r rest ih =>
    intro st
    have hstep := handle_response_step st r
    have hrec := ih (handle_response st r)
    constructor
    · rw [List.foldl_cons, hrec.1, hstep.1]
      simp only [lastMatchBody]
      cases hl : lastMatchBody rest <;> simp [hl]
    · rw [List.foldl_cons, hrec.2, hstep.2]
      simp [anyMatchOk, List.any_cons, Bool.or_assoc]

/-- Claim C3 (amended): the listener has no first-match-wins guard.  Every
matching response whose body reads successfully overwrites the stored body,
so the captured body is that of the last such response, and the completion
event is set exactly when some matching response was read (setting an
already-set event is a no-op, so the event itself stays set). -/
theorem capture_last_match_wins (rs : List Resp) :
    (listenerFold rs).data = lastMatchBody rs
  ∧ (listenerFold rs).eventSet = anyMatchOk rs := by
  have h := listenerFold_general rs initListener
  unfold listenerFold
  constructor
  · rw [h.1]
    cases hl : lastMatchBody rs <;> simp [initListener]
  · rw [h.2]
    simp [initListener]

/-- A first matching response carrying body `AAA`. -/
def respA : Resp :=
  ("https://one.google.com/batchexecute?rpcids=GI6Jdd".data,
   Except.ok "AAA".data)

/-- A second matching response carrying body `BBB`. -/
def respB : Resp :=
  ("https://one.google.com/batchexecute?rpcids=GI6Jdd".data,
   Except.ok "BBB".data)

/-- Counterexample to C3 as stated: after the first matching response has
been stored and the signal fired, a second matching response is NOT
ignored: it overwrites the stored body (`AAA` becomes `BBB`). -/
theorem capture_overwrite_cex :
    (listenerFold [respA]).data = some "AAA".data
  ∧ (listenerFold [respA]).eventSet = true
  ∧ (listenerFold [respA, respB]).data = some "BBB".data
  ∧ (listenerFold [respA, respB]).data ≠ some "AAA".data := by
  refine ⟨by decide, by decide, by decide, by decide⟩

theorem offerFallback_shape (p : PageElems) :
    offerFallback p = (Status.verified, none)
  ∨ offerFallback p = (Status.ineligible, none) := by
  unfold offerFallback
  split
  · exact Or.inl rfl
  · exact Or.inr rfl

/-- Every result of the DOM fallback either carries no evidence or has
status `link_ready`. -/
theorem detect_page_elements_shape (p : PageElems) :
    (detect_page_elements p).2 = none
  ∨ (detect_page_elements p).1 = Status.link_ready := by
  unfold detect_page_elements detect_page_elements_inner
  rcases p.hSRGPd with e | c1
  · exact Or.inl rfl
  · by_cases h1 : 0 < c1
    · simp [h1]
    · simp only [h1, if_false]
      rcases p.v67aGc with e | c2
      · exact Or.inl rfl
      · by_cases h2 : 0 < c2
        · simp [h2]
        · simp only [h2, if_false]
          rcases hx : extract_sheerid_link p with _ | l
          · rcases offerFallback_shape p with h | h <;> simp [h]
          · by_cases he : l.isEmpty = true
            · simp only [he, if_true]
              rcases offerFallback_shape p with h | h <;> simp [h]
            · simp [he]

/-- If the response-analysis stage yields evidence, its status is
`link_ready` (the API path always yields `None` as evidence). -/
theorem analyze_evidence (w : World) (l : Str)
    (h : (analyze w).2 = some l) : (analyze w).1 = Status.link_ready := by
  have hdet : (detect_page_elements w.page).2 = some l →
      (detect_page_elements w.page).1 = Status.link_ready := by
    intro hd
    rcases detect_page_elements_shape w.page with h0 | h0
    · rw [h0] at hd; cases hd
    · exact h0
  unfold analyze at h ⊢
  cases hdat : (listenerFold w.responses).data with
  | none =>
    rw [hdat] at h
    exact hdet h
  | some d =>
    rw [hdat] at h
    dsimp only at h ⊢
    by_cases hd : d.isEmpty = true
    · rw [if_pos hd] at h ⊢
      exact hdet h
    · rw [if_neg hd] at h ⊢
      cases hp : parse_api_response d with
      | none =>
        rw [hp] at h
        exact hdet h
      | some s =>
        rw [hp] at h
        simp at h

theorem check_status_evidence (w : World) (l : Str)
    (h : (check_google_one_status_v2 w).1.2 = some l) :
    (check_google_one_status_v2 w).1.1 = Status.link_ready := by
  unfold check_google_one_status_v2 at h ⊢
  cases hg : w.gotoOnePage with
  | error e =>
    rw [hg] at h
    simp at h
  | ok u =>
    rw [hg] at h
    dsimp only at h ⊢
    cases hn : w.networkIdle with
    | error e =>
      rw [hn] at h
      simp at h
    | ok u2 =>
      rw [hn] at h
      exact analyze_evidence w l h

/-- Claim C2 (amended): across every path of the detection flow, an
evidence link is returned only with status `link_ready`; the converse
fails (see the counterexample), since DOM rule 1 keeps status
`link_ready` even when extraction finds no link. -/
theorem evidence_only_if_link_ready (w : World) (l : Str)
    (h : (full_google_detection w).1.2.2 = some l) :
    (full_google_detection w).1.2.1 = Status.link_ready := by
  unfold full_google_detection at h ⊢
  by_cases hl : (check_google_login_by_avatar w).1 = true
  · simp only [hl, if_true] at h ⊢
    exact check_status_evidence w l h
  · simp only [Bool.not_eq_true] at hl
    simp only [hl] at h
    simp at h

/-- A page where no query raises, no marker is present and no link exists. -/
def pageEmpty : PageElems :=
  { hSRGPd := .ok 0, v67aGc := .ok 0, sheeridAnchorCount := .ok 0,
    sheeridAnchorHref := .ok none, contentScan := .ok none,
    offer1 := .ok 0, offer2 := .ok 0, offer3 := .ok 0 }

/-- A page where only the verified marker `V67aGc` is present. -/
def pageVerified : PageElems :=
  { pageEmpty with v67aGc := .ok 1 }

/-- A page where the pending marker `hSRGPd` is present but no SheerID link
is extractable. -/
def pageLinkNoEvidence : PageElems :=
  { pageEmpty with hSRGPd := .ok 1 }

/-- A concrete SheerID verification link. -/
def linkUrl : Str := "https://services.sheerid.com/verify/x/".data

/-- A page where the pending marker is present and the anchor query yields
the link. -/
def pageLinkWithEvidence : PageElems :=
  { pageEmpty with
    hSRGPd := .ok 1
    sheeridAnchorCount := .ok 1
    sheeridAnchorHref := .ok (some linkUrl) }

/-- A page where both the pending marker and the verified marker are
present. -/
def pageBothMarkers : PageElems :=
  { pageEmpty with
    hSRGPd := .ok 1
    v67aGc := .ok 1 }

/-- A page where the rule-1 count query raises while the verified marker is
present. -/
def pageRule1Raises : PageElems :=
  { pageEmpty with
    hSRGPd := .error ()
    v67aGc := .ok 1 }

/-- A page where the first offer-selector query raises and the second offer
selector matches. -/
def pageOfferSkip : PageElems :=
  { pageEmpty with
    offer1 := .error ()
    offer2 := .ok 1 }

/-- A world whose session operations all succeed, navigations included,
with no matching API response, over a given page. -/
def okWorld (p : PageElems) : World :=
  { gotoAccounts := .ok (), avatarVisible := fun _ => .ok (),
    gotoOnePage := .ok (), responses := [], networkIdle := .ok (),
    page := p }

/-- Counterexample to C2 as stated: with the pending marker present but no
extractable link, the flow returns status `link_ready` with no evidence
link, so the claimed "present if and only if link_ready" fails. -/
theorem evidence_iff_link_ready_cex :
    (full_google_detection (okWorld pageLinkNoEvidence)).1
      = (true, Status.link_ready, none)
  ∧ ¬ ((full_google_detection (okWorld pageLinkNoEvidence)).1.2.2 ≠ none ↔
        (full_google_detection (okWorld pageLinkNoEvidence)).1.2.1
          = Status.link_ready) := by
  refine ⟨by decide, by decide⟩

/-- Witness for C2 (amended): a run that does return evidence, and its
status is `link_ready`. -/
theorem evidence_only_if_link_ready_witness :
    (full_google_detection (okWorld pageLinkWithEvidence)).1.2.2 = some linkUrl
  ∧ (full_google_detection (okWorld pageLinkWithEvidence)).1.2.1
      = Status.link_ready :=
  ⟨by decide,
   evidence_only_if_link_ready (okWorld pageLinkWithEvidence) linkUrl (by decide)⟩

/-- Claim C4: rule priority in the DOM fallback is absolute.  Whenever the
verification-pending marker query succeeds with a positive count, the
result status is `link_ready` and never `verified`, regardless of every
other page element (in particular of the verified marker). -/
theorem dom_rule1_priority (p : PageElems) (n : Nat)
    (h : p.hSRGPd = Except.ok n) (hn : 0 < n) :
    (detect_page_elements p).1 = Status.link_ready
  ∧ (detect_page_elements p).1 ≠ Status.verified := by
  unfold detect_page_elements detect_page_elements_inner
  rw [h]
  dsimp only
  rw [if_pos hn]
  exact ⟨rfl, fun hc => Status.noConfusion hc⟩

/-- Witness for C4: a page where both the pending marker and the verified
marker are present still classifies as `link_ready`. -/
theorem dom_rule1_priority_witness :
    pageBothMarkers.hSRGPd = Except.ok 1
  ∧ pageBothMarkers.v67aGc = Except.ok 1
  ∧ (detect_page_elements pageBothMarkers).1 = Status.link_ready
  ∧ (detect_page_elements pageBothMarkers).1 ≠ Status.verified :=
  ⟨rfl, rfl, (dom_rule1_priority pageBothMarkers 1 rfl (by decide)).1,
   (dom_rule1_priority pageBothMarkers 1 rfl (by decide)).2⟩

/-- Counterexample to C10 as stated: the `try` of `_detect_page_elements`
wraps all five rules at once, so an exception in rule 1 does NOT fall
through to rule 2: with the rule-1 query raising and the verified marker
present, the result is ("ineligible", None), not ("verified", None) as
rule-2 matching would give. -/
theorem dom_rule_exception_cex :
    pageRule1Raises.hSRGPd = Except.error ()
  ∧ pageRule1Raises.v67aGc = Except.ok 1
  ∧ detect_page_elements pageRule1Raises = (Status.ineligible, none)
  ∧ detect_page_elements pageRule1Raises ≠ (Status.verified, none) := by
  refine ⟨rfl, rfl, by decide, by decide⟩

/-- Claim C10 (amended): an exception inside the evidence extractor or in
one of the rule-4 per-selector queries is contained (the next selector is
still tried), while an exception escaping rules 1-3 aborts the remaining
rules; in every such case the overall result degrades to
("ineligible", None) rather than a fatal error, and exhausting all rules
without a match also yields ("ineligible", None). -/
theorem dom_exception_policy (p : PageElems) :
    (detect_page_elements_inner p = Except.error () →
      detect_page_elements p = (Status.ineligible, none))
  ∧ (p.hSRGPd = Except.ok 0 → p.v67aGc = Except.ok 0 →
      extract_sheerid_link p = none → p.offer1 = Except.error () →
      offerHit p.offer2 = true →
      detect_page_elements p = (Status.verified, none))
  ∧ (p.hSRGPd = Except.ok 0 → p.v67aGc = Except.ok 0 →
      extract_sheerid_link p = none →
      offerHit p.offer1 = false → offerHit p.offer2 = false →
      offerHit p.offer3 = false →
      detect_page_elements p = (Status.ineligible, none)) := by
  refine ⟨fun he => ?_, fun h1 h2 hx ho1 ho2 => ?_, fun h1 h2 hx ho1 ho2 ho3 => ?_⟩
  · unfold detect_page_elements
    rw [he]
  · unfold detect_page_elements detect_page_elements_inner offerFallback
    rw [h1, h2, hx, ho1, ho2]
    simp [offerHit]
  · unfold detect_page_elements detect_page_elements_inner offerFallback
    rw [h1, h2, hx, ho1, ho2, ho3]
    simp

/-- Witness for C10 (amended): the three branches at concrete pages — a
rule-1 exception, a skipped raising offer selector with the next one
matching, and full exhaustion. -/
theorem dom_exception_policy_witness :
    detect_page_elements pageRule1Raises = (Status.ineligible, none)
  ∧ detect_page_elements pageOfferSkip = (Status.verified, none)
  ∧ detect_page_elements pageEmpty = (Status.ineligible, none) :=
  ⟨(dom_exception_policy pageRule1Raises).1 rfl,
   (dom_exception_policy pageOfferSkip).2.1 rfl rfl rfl rfl rfl,
   (dom_exception_policy pageEmpty).2.2 rfl rfl rfl rfl rfl rfl⟩

theorem tryAvatars_trace_mem (w : World) (ss : List Str) :
    ∀ e ∈ (tryAvatars w ss).2, e = Effect.avatarWait := by
  induction ss with
  | nil => intro e he; simp [tryAvatars] at he
  | cons s rest ih =>
    intro e he
    unfold tryAvatars at he
    cases hv : w.avatarVisible s with
    | ok u =>
      rw [hv] at he
      simp at he
      exact he
    | error u =>
      rw [hv] at he
      simp at he
      rcases he with he | he
      · exact he
      · exact ih e he

/-- Every effect of the login detector is a navigation to the accounts page
or an avatar-visibility wait. -/
theorem login_trace_mem (w : World) :
    ∀ e ∈ (check_google_login_by_avatar w).2,
      e = Effect.gotoAccounts ∨ e = Effect.avatarWait := by
  intro e he
  unfold check_google_login_by_avatar at he
  cases hg : w.gotoAccounts with
  | error u =>
    rw [hg] at he
    simp at he
    exact Or.inl he
  | ok u =>
    rw [hg] at he
    simp at he
    rcases he with he | he
    · exact Or.inl he
    · exact Or.inr (tryAvatars_trace_mem w avatar_selectors e he)

theorem login_trace_no_listener (w : World) :
    Effect.addListener ∉ (check_google_login_by_avatar w).2
  ∧ Effect.removeListener ∉ (check_google_login_by_avatar w).2 := by
  constructor
  · intro hmem
    rcases login_trace_mem w _ hmem with h | h <;> cases h
  · intro hmem
    rcases login_trace_mem w _ hmem with h | h <;> cases h

/-- Claim C5: whenever the login detector reports `false`, the top-level
flow returns exactly (False, "not_logged_in", None), performs only the
effects of the login detector (the aggregator is never invoked), and never
subscribes the response listener. -/
theorem full_detection_short_circuit (w : World)
    (h : (check_google_login_by_avatar w).1 = false) :
    (full_google_detection w).1 = (false, Status.not_logged_in, none)
  ∧ (full_google_detection w).2 = (check_google_login_by_avatar w).2
  ∧ Effect.addListener ∉ (full_google_detection w).2 := by
  unfold full_google_detection
  rw [h]
  exact ⟨rfl, rfl, (login_trace_no_listener w).1⟩

/-- A world where the accounts-page navigation raises. -/
def worldLoginFails : World :=
  { gotoAccounts := .error (), avatarVisible := fun _ => .ok (),
    gotoOnePage := .ok (), responses := [], networkIdle := .ok (),
    page := pageEmpty }

/-- Witness for C5: a world where the accounts navigation raises, so login
detection yields `false`. -/
theorem full_detection_short_circuit_witness :
    (full_google_detection worldLoginFails).1
      = (false, Status.not_logged_in, none)
  ∧ Effect.addListener ∉ (full_google_detection worldLoginFails).2 :=
  ⟨(full_detection_short_circuit worldLoginFails rfl).1,
   (full_detection_short_circuit worldLoginFails rfl).2.2⟩

theorem tryAvatars_all_fail (w : World) (ss : List Str)
    (h : ∀ s, s ∈ ss → w.avatarVisible s = Except.error ()) :
    (tryAvatars w ss).1 = false := by
  induction ss with
  | nil => simp [tryAvatars]
  | cons s rest ih =>
    unfold tryAvatars
    rw [h s (by simp)]
    dsimp only
    exact ih fun x hx => h x (by simp [hx])

/-- A world where every avatar-visibility wait raises (times out). -/
def worldAvatarsFail : World :=
  { gotoAccounts := .ok (), avatarVisible := fun _ => .error (),
    gotoOnePage := .ok (), responses := [], networkIdle := .ok (),
    page := pageEmpty }

/-- A world where the qualification-page navigation raises. -/
def worldGotoOneFails : World :=
  { gotoAccounts := .ok (), avatarVisible := fun _ => .ok (),
    gotoOnePage := .error (), responses := [], networkIdle := .ok (),
    page := pageEmpty }

/-- A world where the network-idle wait raises (times out) over a page whose
verified marker is present. -/
def worldIdleFails : World :=
  { gotoAccounts := .ok (), avatarVisible := fun _ => .ok (),
    gotoOnePage := .ok (), responses := [], networkIdle := .error (),
    page := pageVerified }

/-- Claim C6: no public operation raises across its boundary.  The login
detector returns `false` on a navigation failure and when every avatar
wait fails; the qualification check maps any escaping failure (navigation
or the network-idle wait, the only fallible inner operations) to
("error", None).  All embedded operations are total by construction, so
a well-formed result is always returned. -/
theorem no_raise_contract (w : World) :
    (w.gotoAccounts = Except.error () →
      (check_google_login_by_avatar w).1 = false)
  ∧ ((∀ s, s ∈ avatar_selectors → w.avatarVisible s = Except.error ()) →
      (check_google_login_by_avatar w).1 = false)
  ∧ (w.gotoOnePage = Except.error () →
      (check_google_one_status_v2 w).1 = (Status.error, none))
  ∧ (w.gotoOnePage = Except.ok () → w.networkIdle = Except.error () →
      (check_google_one_status_v2 w).1 = (Status.error, none)) := by
  refine ⟨fun h => ?_, fun h => ?_, fun h => ?_, fun h1 h2 => ?_⟩
  · unfold check_google_login_by_avatar
    rw [h]
  · unfold check_google_login_by_avatar
    cases hg : w.gotoAccounts with
    | error u => rfl
    | ok u =>
      dsimp only
      exact tryAvatars_all_fail w avatar_selectors h
  · unfold check_google_one_status_v2
    rw [h]
  · unfold check_google_one_status_v2
    rw [h1, h2]

/-- Witness for C6: the four failure modes at concrete worlds. -/
theorem no_raise_contract_witness :
    (check_google_login_by_avatar worldLoginFails).1 = false
  ∧ (check_google_login_by_avatar worldAvatarsFail).1 = false
  ∧ (check_google_one_status_v2 worldGotoOneFails).1 = (Status.error, none)
  ∧ (check_google_one_status_v2 worldIdleFails).1 = (Status.error, none) :=
  ⟨(no_raise_contract worldLoginFails).1 rfl,
   (no_raise_contract worldAvatarsFail).2.1 fun _ _ => rfl,
   (no_raise_contract worldGotoOneFails).2.2.1 rfl,
   (no_raise_contract worldIdleFails).2.2.2 rfl rfl⟩

/-- The qualification check produces exactly one of two effect traces,
both of which start with the listener registration and end with its
removal. -/
theorem check_trace_shape (w : World) :
    (check_google_one_status_v2 w).2
      = [Effect.addListener, Effect.gotoOne, Effect.removeListener]
  ∨ (check_google_one_status_v2 w).2
      = [Effect.addListener, Effect.gotoOne, Effect.waitEvent,
         Effect.waitIdle, Effect.removeListener] := by
  unfold check_google_one_status_v2
  cases w.gotoOnePage with
  | error u => exact Or.inl rfl
  | ok u =>
    cases w.networkIdle with
    | error u2 => exact Or.inr rfl
    | ok u2 => exact Or.inr rfl

/-- Claim C7: the listener is registered exactly once and removed exactly
once on every exit path of the qualification check, with registration
first and removal last; over the full detection flow the number of
registrations always equals the number of removals, so a session never
keeps a leftover listener. -/
theorem listener_always_removed (w : World) :
    ((check_google_one_status_v2 w).2).count Effect.addListener = 1
  ∧ ((check_google_one_status_v2 w).2).count Effect.removeListener = 1
  ∧ ((check_google_one_status_v2 w).2).getLast? = some Effect.removeListener
  ∧ ((check_google_one_status_v2 w).2).head? = some Effect.addListener
  ∧ ((full_google_detection w).2).count Effect.addListener
      = ((full_google_detection w).2).count Effect.removeListener := by
  have hq : ((check_google_one_status_v2 w).2).count Effect.addListener = 1
      ∧ ((check_google_one_status_v2 w).2).count Effect.removeListener = 1
      ∧ ((check_google_one_status_v2 w).2).getLast?
          = some Effect.removeListener
      ∧ ((check_google_one_status_v2 w).2).head? = some Effect.addListener := by
    rcases check_trace_shape w with h | h <;> rw [h] <;>
      exact ⟨by decide, by decide, by decide, by decide⟩
  have hadd0 : ((check_google_login_by_avatar w).2).count Effect.addListener = 0 :=
    List.count_eq_zero.mpr (login_trace_no_listener w).1
  have hrem0 : ((check_google_login_by_avatar w).2).count Effect.removeListener = 0 :=
    List.count_eq_zero.mpr (login_trace_no_listener w).2
  refine ⟨hq.1, hq.2.1, hq.2.2.1, hq.2.2.2, ?_⟩
  unfold full_google_detection
  cases hl : (check_google_login_by_avatar w).1 with
  | true =>
    rw [if_pos rfl]
    rw [List.count_append, List.count_append, hadd0, hrem0, hq.1, hq.2.1]
  | false =>
    rw [if_neg (by decide)]
    rw [hadd0, hrem0]

/-- Claim C8 (amended): after navigation the two waits are sequential, not
raced: whenever the network-settled wait occurs, the completion-signal
wait occurs before it in the trace (the first blocks the second). -/
theorem waits_sequential (w : World)
    (h : Effect.waitIdle ∈ (check_google_one_status_v2 w).2) :
    Effect.waitEvent ∈ (check_google_one_status_v2 w).2
  ∧ (check_google_one_status_v2 w).2.indexOf Effect.waitEvent
      < (check_google_one_status_v2 w).2.indexOf Effect.waitIdle := by
  rcases check_trace_shape w with ht | ht
  · rw [ht] at h
    exact absurd h (by decide)
  · rw [ht] at h ⊢
    exact ⟨by decide, by decide⟩

/-- Witness for C8 (amended): the full trace at a concrete world. -/
theorem waits_sequential_witness :
    Effect.waitIdle ∈ (check_google_one_status_v2 (okWorld pageEmpty)).2
  ∧ Effect.waitEvent ∈ (check_google_one_status_v2 (okWorld pageEmpty)).2
  ∧ (check_google_one_status_v2 (okWorld pageEmpty)).2.indexOf Effect.waitEvent
      < (check_google_one_status_v2 (okWorld pageEmpty)).2.indexOf Effect.waitIdle :=
  ⟨by decide, (waits_sequential (okWorld pageEmpty) (by decide)).1,
   (waits_sequential (okWorld pageEmpty) (by decide)).2⟩

/-- Counterexample to C8 as stated: even in a run where the completion
signal never fires (no matching response arrives), the network-settled
wait is entered only after the completion-signal wait has fully run: it
appears strictly later in the effect trace, so the first await blocks the
second instead of racing it. -/
theorem waits_race_cex :
    (listenerFold (okWorld pageEmpty).responses).eventSet = false
  ∧ (check_google_one_status_v2 (okWorld pageEmpty)).2
      = [Effect.addListener, Effect.gotoOne, Effect.waitEvent,
         Effect.waitIdle, Effect.removeListener]
  ∧ (check_google_one_status_v2 (okWorld pageEmpty)).2.indexOf Effect.waitIdle
      = (check_google_one_status_v2 (okWorld pageEmpty)).2.indexOf
          Effect.waitEvent + 1 := by
  refine ⟨by decide, by decide, by decide⟩

/-- Claim C9 (amended): of the waits inside the qualification check, only
the completion-event wait is non-fatal on timeout (the analysis stages are
reached regardless of its outcome, which the model reflects by not even
depending on it); a raising navigation or network-idle wait terminates
the whole check with ("error", None). -/
theorem wait_timeout_policy (w : World) :
    (w.gotoOnePage = Except.error () →
      (check_google_one_status_v2 w).1 = (Status.error, none))
  ∧ (w.gotoOnePage = Except.ok () → w.networkIdle = Except.error () →
      (check_google_one_status_v2 w).1 = (Status.error, none))
  ∧ (w.gotoOnePage = Except.ok () → w.networkIdle = Except.ok () →
      (check_google_one_status_v2 w).1 = analyze w) := by
  refine ⟨fun h => ?_, fun h1 h2 => ?_, fun h1 h2 => ?_⟩
  · unfold check_google_one_status_v2
    rw [h]
  · unfold check_google_one_status_v2
    rw [h1, h2]
  · unfold check_google_one_status_v2
    rw [h1, h2]

/-- Witness for C9 (amended): the three branches at concrete worlds. -/
theorem wait_timeout_policy_witness :
    (check_google_one_status_v2 worldGotoOneFails).1 = (Status.error, none)
  ∧ (check_google_one_status_v2 worldIdleFails).1 = (Status.error, none)
  ∧ (check_google_one_status_v2 (okWorld pageEmpty)).1
      = analyze (okWorld pageEmpty) :=
  ⟨(wait_timeout_policy worldGotoOneFails).1 rfl,
   (wait_timeout_policy worldIdleFails).2.1 rfl rfl,
   (wait_timeout_policy (okWorld pageEmpty)).2.2 rfl rfl⟩

/-- Counterexample to C9 as stated: a network-idle wait timeout is fatal,
not a degradation: the check returns ("error", None) even though the DOM
classifier, had the flow degraded to it, would have returned
("verified", None). -/
theorem wait_timeout_fatal_cex :
    worldIdleFails.networkIdle = Except.error ()
  ∧ (check_google_one_status_v2 worldIdleFails).1 = (Status.error, none)
  ∧ detect_page_elements worldIdleFails.page = (Status.verified, none) := by
  refine ⟨rfl, by decide, by decide⟩
